import Mathlib

/-!
Verification of the coordinate-extraction-and-grid-rendering pipeline of
`src/main.py`.

The file shallowly embeds the two pipelines of the source:

* `print_grid_from_data` — the tabular (TSV) pipeline;
* `print_grid_from_unstructured_doc` — the regex pipeline over the text
  content extracted from the fetched document (network fetch and HTML
  parsing are the spec's excluded collaborators, so the embedding starts
  at the flattened text content).

Machine integers are modelled as `Int` (Python integers are unbounded, no
overflow is involved).  Printed outcomes are modelled by the `Output` sum
type: each constructor corresponds to one early-return message or to the
rendered grid lines.
-/

namespace PyDecoder

/-- A point extracted from the input, as built by both pipelines: the
tabular pipeline stores Python ints for `x`, `y` (which can be negative)
and `str(row[char_col])` for `char`; the regex pipeline stores the decoded
digit runs and the single matched character as a one-character string. -/
structure Point where
  x : Int
  y : Int
  char : String
deriving Repr, DecidableEq

/-- Outcome of one pipeline invocation.  Each constructor stands for the
early-return message printed by the code at the cited line, or for the
grid lines printed at the end; no constructor models a raised exception,
because on these paths the code raises none. -/
inductive Output where
  /-- "No data rows found." (`main.py` line 19) -/
  | noDataRows
  /-- "Input data is missing one of the required columns: …" together
  with "Available columns: …" (`main.py` lines 33–34); the field holds
  the columns actually found. -/
  | missingColumns (available : List String)
  /-- "No valid data to display." (`main.py` line 50) -/
  | noValidData
  /-- "No valid coordinate data found in the document." (line 125) -/
  | noValidCoordinateData
  /-- The grid rows printed in order, one line each. -/
  | rendered (lines : List String)
deriving Repr, DecidableEq

/-! ### Digit runs and integer decoding (shared helpers) -/

/-- Decimal value of a digit run, as Python `int()` computes it. -/
def natOfDigits (ds : List Char) : Nat :=
  ds.foldl (fun n c => n * 10 + (c.toNat - '0'.toNat)) 0

/-- `True` iff `ds` is a non-empty run of decimal digits.  Models the
strings accepted by `pd.to_numeric` after an optional sign.  Restriction
of the model: `pd.to_numeric` also accepts floats and interior
whitespace; the claims only exercise integer-literal cells, and digits
are ASCII (`Char.isDigit`), matching the claims' ASCII inputs. -/
def digitsOnly (ds : List Char) : Bool :=
  !ds.isEmpty && ds.all Char.isDigit

/-- `pd.to_numeric(cell, errors='coerce')` followed by `astype(int)`,
restricted to integer literals: an optional sign and a non-empty digit
run parse to the signed value, anything else coerces to NaN, i.e.
`none`. -/
def parseInt? (s : String) : Option Int :=
  match s.toList with
  | '-' :: ds => if digitsOnly ds then some (-(natOfDigits ds : Int)) else none
  | '+' :: ds => if digitsOnly ds then some ((natOfDigits ds : Int)) else none
  | ds => if digitsOnly ds then some ((natOfDigits ds : Int)) else none

/-! ### Grid construction (`main.py` lines 53–65 and 129–136)

Both pipelines duplicate the same grid code; one embedding serves both.
The tabular copy bounds-checks `x` against `len(grid[y])`, the regex copy
against `len(grid[0])`; the rows all have the same length (and whenever
the `y` check passed the grid is non-empty), so the two checks decide
alike and `placePoint` embeds both. -/

/-- Python `max(...)` over a non-empty list of ints (the empty case is
never reached: both pipelines guard with an emptiness check first). -/
def intMax : List Int → Int
  | [] => 0
  | [a] => a
  | a :: b :: l => max a (intMax (b :: l))

/-- `max_x = max(p.x for p in points)` / `data[x_col].max()`. -/
def maxX (points : List Point) : Int := intMax (points.map Point.x)

/-- `max_y = max(p.y for p in points)` / `data[y_col].max()`. -/
def maxY (points : List Point) : Int := intMax (points.map Point.y)

/-- The blank cell character `' '`. -/
def blank : String := " "

/-- `grid = [[' ' for _ in range(max_x + 1)] for _ in range(max_y + 1)]`.
Python `range(n)` is empty for `n ≤ 0`, hence the `Int.toNat` casts. -/
def emptyGrid (points : List Point) : List (List String) :=
  List.replicate (maxY points + 1).toNat
    (List.replicate (maxX points + 1).toNat blank)

/-- One iteration of the population loop:
`if 0 <= y < len(grid) and 0 <= x < len(grid[y]): grid[y][x] = char`. -/
def placePoint (g : List (List String)) (p : Point) : List (List String) :=
  if 0 ≤ p.y ∧ p.y < (g.length : Int) ∧ 0 ≤ p.x ∧
      p.x < ((g.getD p.y.toNat []).length : Int) then
    g.set p.y.toNat ((g.getD p.y.toNat []).set p.x.toNat p.char)
  else g

/-- Allocate the buffer and run the population loop over the points in
scan order. -/
def buildGrid (points : List Point) : List (List String) :=
  points.foldl placePoint (emptyGrid points)

/-- `"".join(row)`. -/
def joinRow : List String → String
  | [] => ""
  | s :: rest => s ++ joinRow rest

/-- `for row in grid: print("".join(row))` — the printed lines, in
order. -/
def renderLines (g : List (List String)) : List String :=
  g.map joinRow

/-- Cell lookup at non-negative indices: `none` when out of range. -/
def cell (g : List (List String)) (y x : Nat) : Option String :=
  (g[y]?).bind fun row => row[x]?

/-- Python list indexing: a negative index `i` addresses `len + i` when
`-len ≤ i`; out-of-range indexing (an `IndexError`) is `none`. -/
def pyGet {α : Type} (l : List α) (i : Int) : Option α :=
  if 0 ≤ i then l[i.toNat]?
  else if (-i).toNat ≤ l.length then l[(l.length - (-i).toNat)]?
  else none

/-- `grid[y][x]` with Python's indexing semantics. -/
def cellAt (g : List (List String)) (y x : Int) : Option String :=
  (pyGet g y).bind fun row => pyGet row x

/-! ### The tabular pipeline `print_grid_from_data` (lines 8–74) -/

/-- Python `str.strip()`: drop leading and trailing whitespace (the
ASCII whitespace of the inputs at hand). -/
def pyStrip (l : List Char) : List Char :=
  ((l.dropWhile Char.isWhitespace).reverse.dropWhile Char.isWhitespace).reverse

/-- Python `str.split(sep)` for a one-character separator: split at every
occurrence, keeping empty pieces (`"".split(sep)` is `[""]`). -/
def splitOnChar (sep : Char) : List Char → List (List Char)
  | [] => [[]]
  | c :: cs =>
    if c = sep then [] :: splitOnChar sep cs
    else
      match splitOnChar sep cs with
      | [] => [[c]]
      | h :: t => (c :: h) :: t

/-- Line pre-processing (line 17):
`[line.strip() for line in data_string.strip().split('\n') if line.strip()]`. -/
def stripLines (s : String) : List String :=
  ((splitOnChar '\n' (pyStrip s.toList)).map (fun l => String.mk (pyStrip l))).filter
    (fun l => !l.data.isEmpty)

/-- Split a line at tabs, as `pd.read_csv(..., sep='\t')` tokenizes
plain unquoted fields. -/
def splitTabs (line : String) : List String :=
  (splitOnChar '\t' line.toList).map String.mk

/-- `required_cols = [x_col, y_col, char_col]` (line 29). -/
def requiredCols : List String :=
  ["x-coordinate", "y-coordinate", "Character"]

/-- The header row of the cleaned TSV text, as `pd.read_csv(..., sep='\t')`
takes it: the fields of the first line.  Model restriction: quoting and
field-count mismatches of `read_csv` are not modelled; the claims use
plain tab-separated lines. -/
def headerOf (lines : List String) : List String :=
  splitTabs lines.headI

/-- The data rows of the cleaned TSV text: every line after the header,
split at tabs. -/
def dataRows (lines : List String) : List (List String) :=
  (lines.drop 1).map splitTabs

/-- One row's fate under lines 37–46 and 60–63: coerce the `x` and `y`
fields to numbers (`errors='coerce'`), drop the row when either is NaN
(`dropna`), otherwise keep the integer coordinates and
`str(row[char_col])`.  A field absent because the row is short is NaN in
pandas, hence dropped for `x`/`y` and stringified to `"nan"` for the
character column. -/
def rowPoint? (ix ic iy : Nat) (row : List String) : Option Point :=
  match parseInt? ((row[ix]?).getD ""), parseInt? ((row[iy]?).getD "") with
  | some x, some y => some ⟨x, y, (row[ic]?).getD "nan"⟩
  | _, _ => none

/-- The PointSet the tabular pipeline hands to grid construction: column
positions are resolved from the header by name, then every data row is
coerced and the failures dropped. -/
def extractTabular (lines : List String) : List Point :=
  let header := headerOf lines
  let ix := header.indexOf "x-coordinate"
  let ic := header.indexOf "Character"
  let iy := header.indexOf "y-coordinate"
  (dataRows lines).filterMap (rowPoint? ix ic iy)

/-- The tabular pipeline `print_grid_from_data`, composed of the stages
above in source order: pre-process and bail out on header-only input
(lines 17–20), check the required columns (lines 32–35), coerce and drop
rows (lines 37–46), bail out when nothing valid remains (lines 49–51),
then build and print the grid (lines 53–69). -/
def print_grid_from_data (data_string : String) : Output :=
  let lines := stripLines data_string
  if lines.length ≤ 1 then Output.noDataRows
  else
    let header := headerOf lines
    if !(requiredCols.all (fun c => header.contains c)) then
      Output.missingColumns header
    else
      let points := extractTabular lines
      if points.isEmpty then Output.noValidData
      else Output.rendered (renderLines (buildGrid points))

/-! ### The regex pipeline `print_grid_from_unstructured_doc`
(lines 77–145): `re.finditer(r"(\d+)(\D)(\d+)", text_content)` -/

/-- One regex match: the two digit runs decoded and the single separating
non-digit character. -/
structure RawMatch where
  x : Nat
  char : Char
  y : Nat
deriving Repr, DecidableEq

/-- Split off the maximal leading digit run (the greedy `\d+`). -/
def digitRun : List Char → List Char × List Char
  | [] => ([], [])
  | c :: cs =>
    if c.isDigit then ((c :: (digitRun cs).1), (digitRun cs).2)
    else ([], c :: cs)

/-- Attempt to match `(\d+)(\D)(\d+)` anchored at the head of `s`; on
success return the match and the rest of the input after the match's
end.  The first `\d+` takes the maximal digit run, the following
character is then necessarily a non-digit (satisfying `\D`), and the
second `\d+` again takes the maximal run — backtracking can never turn a
failure into a success here, because shrinking a digit run puts a digit
in front of `\D`. -/
def matchAt (s : List Char) : Option (RawMatch × List Char) :=
  match digitRun s with
  | ([], _) => none
  | (d1, rest1) =>
    match rest1 with
    | [] => none
    | c :: rest2 =>
      match digitRun rest2 with
      | ([], _) => none
      | (d2, rest3) => some (⟨natOfDigits d1, c, natOfDigits d2⟩, rest3)

/-- The `finditer` sweep: try to match at the current position; on
success emit the match and resume right after its end (non-overlapping),
on failure advance one character.  `fuel` bounds the recursion and is
instantiated with the input length, which suffices because every step
consumes at least one character. -/
def findIterAux : Nat → List Char → List RawMatch
  | 0, _ => []
  | _ + 1, [] => []
  | fuel + 1, c :: cs =>
    match matchAt (c :: cs) with
    | some (m, rest) => m :: findIterAux fuel rest
    | none => findIterAux fuel cs

/-- Lines 110–115: one `Point` per match — first digit run `x`, the
single character `char`, second digit run `y`. -/
def patPoints (text : String) : List Point :=
  (findIterAux text.toList.length text.toList).map
    (fun m => ⟨(m.x : Int), (m.y : Int), String.singleton m.char⟩)

/-- The regex pipeline from the flattened text content onward: extract
the points (lines 106–115), bail out with the empty-result message when
none were found (lines 124–126), else build and print the grid (lines
129–140).  The fetch, HTML parsing and the debug prints of the table
data (lines 86–100, 117) are the excluded collaborators and print-only
side effects. -/
def print_grid_from_unstructured_doc (text_content : String) : Output :=
  let points := patPoints text_content
  if points.isEmpty then Output.noValidCoordinateData
  else Output.rendered (renderLines (buildGrid points))

/-! ### Helper lemmas -/

theorem le_intMax {l : List Int} {a : Int} (h : a ∈ l) : a ≤ intMax l := by
  induction l with
  | nil => cases h
  | cons b t ih =>
    cases t with
    | nil =>
      rcases List.mem_cons.mp h with h1 | h1
      · simp [intMax, h1]
      · cases h1
    | cons c t2 =>
      rcases List.mem_cons.mp h with h1 | h1
      · subst h1; exact le_max_left _ _
      · exact le_trans (ih h1) (le_max_right _ _)

theorem y_le_maxY {points : List Point} {p : Point} (h : p ∈ points) :
    p.y ≤ maxY points :=
  le_intMax (List.mem_map_of_mem Point.y h)

theorem x_le_maxX {points : List Point} {p : Point} (h : p ∈ points) :
    p.x ≤ maxX points :=
  le_intMax (List.mem_map_of_mem Point.x h)

theorem placePoint_length (g : List (List String)) (p : Point) :
    (placePoint g p).length = g.length := by
  unfold placePoint; split <;> simp

theorem foldl_placePoint_length (l : List Point) (g : List (List String)) :
    (l.foldl placePoint g).length = g.length := by
  induction l generalizing g with
  | nil => rfl
  | cons p t ih => rw [List.foldl_cons, ih, placePoint_length]

theorem getD_mem_of_lt {g : List (List String)} {n : Nat} (h : n < g.length) :
    g.getD n [] ∈ g := by
  rw [List.getD_eq_getElem?_getD, List.getElem?_eq_getElem h]
  exact List.getElem_mem h

theorem placePoint_uniform {g : List (List String)} {W : Nat} (p : Point)
    (h : ∀ row ∈ g, row.length = W) :
    ∀ row ∈ placePoint g p, row.length = W := by
  unfold placePoint
  split
  case isTrue hc =>
    obtain ⟨hy0, hy, _, _⟩ := hc
    intro row hr
    rcases List.mem_or_eq_of_mem_set hr with h1 | h1
    · exact h row h1
    · subst h1
      rw [List.length_set]
      exact h _ (getD_mem_of_lt (by omega))
  case isFalse _ => exact h

theorem foldl_placePoint_uniform {W : Nat} (l : List Point)
    {g : List (List String)} (h : ∀ row ∈ g, row.length = W) :
    ∀ row ∈ l.foldl placePoint g, row.length = W := by
  induction l generalizing g with
  | nil => exact h
  | cons p t ih => rw [List.foldl_cons]; exact ih (placePoint_uniform p h)

theorem buildGrid_length (points : List Point) :
    (buildGrid points).length = (maxY points + 1).toNat := by
  rw [buildGrid, foldl_placePoint_length, emptyGrid, List.length_replicate]

theorem buildGrid_uniform (points : List Point) :
    ∀ row ∈ buildGrid points, row.length = (maxX points + 1).toNat := by
  rw [buildGrid]
  refine foldl_placePoint_uniform points (fun row hr => ?_)
  rw [emptyGrid] at hr
  rw [(List.eq_of_mem_replicate hr), List.length_replicate]

theorem cell_placePoint_hit {g : List (List String)} {p : Point}
    (hy0 : 0 ≤ p.y) (hy : p.y < (g.length : Int)) (hx0 : 0 ≤ p.x)
    (hx : p.x < ((g.getD p.y.toNat []).length : Int)) :
    cell (placePoint g p) p.y.toNat p.x.toNat = some p.char := by
  rw [placePoint, if_pos ⟨hy0, hy, hx0, hx⟩, cell]
  rw [List.getElem?_set_self (by omega)]
  simp only [Option.some_bind]
  rw [List.getElem?_set_self (by omega)]

theorem cell_placePoint_miss {g : List (List String)} {p : Point} {y x : Nat}
    (hne : ¬(p.y = (y : Int) ∧ p.x = (x : Int))) :
    cell (placePoint g p) y x = cell g y x := by
  rw [placePoint]
  split
  case isTrue hc =>
    obtain ⟨hy0, hy, hx0, hx⟩ := hc
    by_cases hyy : p.y.toNat = y
    · have hxx : p.x.toNat ≠ x := fun hxx => hne ⟨by omega, by omega⟩
      subst hyy
      rw [cell, cell, List.getElem?_set_self (by omega)]
      simp only [Option.some_bind]
      rw [List.getElem?_set_ne hxx,
        List.getD_eq_getElem?_getD, List.getElem?_eq_getElem (by omega : p.y.toNat < g.length)]
      simp only [Option.getD_some, Option.some_bind]
    · rw [cell, cell, List.getElem?_set_ne hyy]
  case isFalse _ => rfl

theorem cell_foldl_miss {l : List Point} {g : List (List String)} {y x : Nat}
    (h : ∀ q ∈ l, ¬(q.y = (y : Int) ∧ q.x = (x : Int))) :
    cell (l.foldl placePoint g) y x = cell g y x := by
  induction l generalizing g with
  | nil => rfl
  | cons q t ih =>
    rw [List.foldl_cons, ih (fun r hr => h r (List.mem_cons_of_mem _ hr)),
      cell_placePoint_miss (h q (List.mem_cons_self _ _))]

theorem cell_emptyGrid {points : List Point} {y x : Nat}
    (hy : y < (maxY points + 1).toNat) (hx : x < (maxX points + 1).toNat) :
    cell (emptyGrid points) y x = some blank := by
  rw [cell, emptyGrid, List.getElem?_replicate_of_lt hy]
  simp only [Option.some_bind]
  rw [List.getElem?_replicate_of_lt hx]

/-! ### Claim C1 — grid dimensions -/

/-- C1, counterexample to the claim as stated: the tabular extractor
accepts negative coordinates, and on the input below it produces the
non-empty point set `[(-2, -2, "A")]` whose grid has `0` rows — not
`max_y + 1 = -1` rows (`range(max_y + 1)` is empty for a negative
bound). -/
theorem C1_counterexample :
    extractTabular (stripLines "x-coordinate\tCharacter\ty-coordinate\n-2\tA\t-2") =
      [⟨-2, -2, "A"⟩] ∧
    ¬(((buildGrid (extractTabular
        (stripLines "x-coordinate\tCharacter\ty-coordinate\n-2\tA\t-2"))).length : Int) =
      maxY (extractTabular
        (stripLines "x-coordinate\tCharacter\ty-coordinate\n-2\tA\t-2")) + 1) := by
  decide

/-- C1, amended: for every non-empty point set all of whose coordinates
are non-negative, the grid built from it has exactly `max_y + 1` rows
and every row has exactly `max_x + 1` columns. -/
theorem C1_grid_dimensions (points : List Point) (hne : points ≠ [])
    (hnn : ∀ p ∈ points, 0 ≤ p.x ∧ 0 ≤ p.y) :
    ((buildGrid points).length : Int) = maxY points + 1 ∧
    ∀ row ∈ buildGrid points, (row.length : Int) = maxX points + 1 := by
  obtain ⟨p, hp⟩ := List.exists_mem_of_ne_nil points hne
  obtain ⟨hx0, hy0⟩ := hnn p hp
  have hy := y_le_maxY hp
  have hx := x_le_maxX hp
  refine ⟨?_, fun row hr => ?_⟩
  · rw [buildGrid_length]; omega
  · rw [buildGrid_uniform points row hr]; omega

/-- Witness for `C1_grid_dimensions` at the one-point set
`[(1, 2, "#")]`: a 3-row, 2-column grid. -/
theorem C1_witness :
    ((buildGrid [⟨1, 2, "#"⟩]).length : Int) = maxY [⟨1, 2, "#"⟩] + 1 ∧
    ∀ row ∈ buildGrid [⟨1, 2, "#"⟩], (row.length : Int) = maxX [⟨1, 2, "#"⟩] + 1 :=
  C1_grid_dimensions [⟨1, 2, "#"⟩] (by decide) (by decide)

/-! ### Claim C2 — population is last-write-wins -/

/-- C2, counterexample to the claim as stated: the point
`(-1, 0, "B")` is extracted (and no later point shares its
coordinates), but `grid[0][-1]` — Python's indexing for its cell —
holds `"A"`, the character of the point `(2, 0, "A")` that occupies the
last column, because the population loop's bounds check skips the
negative-coordinate point. -/
theorem C2_counterexample :
    extractTabular
        (stripLines "x-coordinate\tCharacter\ty-coordinate\n2\tA\t0\n-1\tB\t0") =
      [⟨2, 0, "A"⟩, ⟨-1, 0, "B"⟩] ∧
    cellAt (buildGrid (extractTabular
        (stripLines "x-coordinate\tCharacter\ty-coordinate\n2\tA\t0\n-1\tB\t0"))) 0 (-1) =
      some "A" ∧
    ¬cellAt (buildGrid (extractTabular
        (stripLines "x-coordinate\tCharacter\ty-coordinate\n2\tA\t0\n-1\tB\t0"))) 0 (-1) =
      some "B" := by
  decide

/-- C2, amended: for every extracted point `p` with non-negative
coordinates, after grid population the cell at row `p.y`, column `p.x`
holds `p.char`, unless a point occurring later in scan order has the
same coordinates (last write wins). -/
theorem C2_last_write_wins (points l1 l2 : List Point) (p : Point)
    (hsplit : points = l1 ++ p :: l2)
    (hx0 : 0 ≤ p.x) (hy0 : 0 ≤ p.y)
    (hlast : ∀ q ∈ l2, ¬(q.x = p.x ∧ q.y = p.y)) :
    cell (buildGrid points) p.y.toNat p.x.toNat = some p.char := by
  subst hsplit
  have hpy := y_le_maxY (show p ∈ l1 ++ p :: l2 by simp)
  have hpx := x_le_maxX (show p ∈ l1 ++ p :: l2 by simp)
  rw [buildGrid, List.foldl_append, List.foldl_cons,
    cell_foldl_miss (fun q hq hc => hlast q hq ⟨by omega, by omega⟩)]
  have hunif := foldl_placePoint_uniform (W := (maxX (l1 ++ p :: l2) + 1).toNat) l1
    (g := emptyGrid (l1 ++ p :: l2)) (fun row hr => by
      rw [emptyGrid] at hr
      rw [List.eq_of_mem_replicate hr, List.length_replicate])
  have hlen : (l1.foldl placePoint (emptyGrid (l1 ++ p :: l2))).length
      = (maxY (l1 ++ p :: l2) + 1).toNat := by
    rw [foldl_placePoint_length, emptyGrid, List.length_replicate]
  refine cell_placePoint_hit hy0 ?_ hx0 ?_
  · rw [hlen]; omega
  · rw [hunif _ (getD_mem_of_lt (by omega))]; omega

/-- Witness for `C2_last_write_wins`: two points at `(0, 0)`, the later
one wins. -/
theorem C2_witness :
    cell (buildGrid [⟨0, 0, "A"⟩, ⟨0, 0, "B"⟩]) 0 0 = some "B" :=
  C2_last_write_wins [⟨0, 0, "A"⟩, ⟨0, 0, "B"⟩] [⟨0, 0, "A"⟩] [] ⟨0, 0, "B"⟩ rfl
    (by decide) (by decide) (by decide)

/-! ### Claim C3 — the regex sweep on the fixtures -/

/-- C3, counterexample to the claim as stated: on `"1A23B4"` the sweep
yields exactly ONE point, not two — the greedy first match `"1A23"`
consumes the digits `"23"`, and the remainder `"B4"` contains no
further `(\d+)(\D)(\d+)` match (`"4"` is not followed by a non-digit
and more digits). -/
theorem C3_counterexample :
    patPoints "1A23B4" = [⟨1, 23, "A"⟩] ∧ (patPoints "1A23B4").length ≠ 2 := by
  decide

/-- C3, amended: the sweep is greedy, leftmost and non-overlapping; on
`"1A2"` it yields exactly the one point `(x = 1, char = "A", y = 2)`,
and on `"1A23B4"` it yields exactly the one point
`(x = 1, char = "A", y = 23)`, scanning resuming after the end of that
match and finding nothing in `"B4"`. -/
theorem C3_fixtures :
    patPoints "1A2" = [⟨1, 2, "A"⟩] ∧ patPoints "1A23B4" = [⟨1, 23, "A"⟩] := by
  decide

/-! ### Claim C4 — non-negativity of coordinates -/

/-- C4, counterexample to the claim as stated: the tabular coercion
accepts the numeric string `"-3"`, so the point `(-3, 0, "A")` reaches
grid construction (the pipeline proceeds to build and render a grid
from it) even though its x-coordinate is negative. -/
theorem C4_counterexample :
    extractTabular (stripLines "x-coordinate\tCharacter\ty-coordinate\n-3\tA\t0") =
      [⟨-3, 0, "A"⟩] ∧
    ¬(∀ p ∈ extractTabular
        (stripLines "x-coordinate\tCharacter\ty-coordinate\n-3\tA\t0"),
        0 ≤ p.x ∧ 0 ≤ p.y) ∧
    print_grid_from_data "x-coordinate\tCharacter\ty-coordinate\n-3\tA\t0" =
      Output.rendered [""] := by
  decide

/-- C4, amended: every point the pattern extractor yields has `x ≥ 0`
and `y ≥ 0` (its coordinates decode digit runs); the tabular extractor
only discards non-numeric or missing coordinates, so a negative numeric
coordinate can reach the grid builder — where the population loop's
defensive bounds check leaves such a point unplaced. -/
theorem C4_nonneg :
    (∀ (s : String) (p : Point), p ∈ patPoints s → 0 ≤ p.x ∧ 0 ≤ p.y) ∧
    (∀ (g : List (List String)) (p : Point), p.x < 0 ∨ p.y < 0 →
      placePoint g p = g) := by
  constructor
  · intro s p hp
    rw [patPoints] at hp
    obtain ⟨m, _, rfl⟩ := List.mem_map.mp hp
    exact ⟨Int.natCast_nonneg _, Int.natCast_nonneg _⟩
  · intro g p h
    rw [placePoint, if_neg]
    rintro ⟨h1, _, h3, _⟩
    omega

/-- Witness for `C4_nonneg`: the point extracted from `"1A2"` is
non-negative, and a point with a negative x-coordinate is not placed. -/
theorem C4_witness :
    (0 ≤ (Point.mk 1 2 "A").x ∧ 0 ≤ (Point.mk 1 2 "A").y) ∧
    placePoint [[" "]] ⟨-1, 0, "B"⟩ = [[" "]] :=
  ⟨C4_nonneg.1 "1A2" ⟨1, 2, "A"⟩ (by decide),
   C4_nonneg.2 [[" "]] ⟨-1, 0, "B"⟩ (by decide)⟩

/-! ### Claim C5 — uncovered cells stay blank -/

/-- C5 (confirmed): after grid population, every cell of the grid whose
coordinates are not those of any extracted point holds the blank
character — the empty grid is all-blank and the population loop writes
only at point coordinates. -/
theorem C5_uncovered_blank (points : List Point) (y x : Nat)
    (hcov : ∀ p ∈ points, ¬(p.x = (x : Int) ∧ p.y = (y : Int)))
    (hy : y < (buildGrid points).length)
    (hx : x < ((buildGrid points).getD y []).length) :
    cell (buildGrid points) y x = some blank := by
  have hlen := buildGrid_length points
  have hrow := buildGrid_uniform points _ (getD_mem_of_lt hy)
  rw [buildGrid, cell_foldl_miss (fun q hq hc => hcov q hq ⟨hc.2, hc.1⟩)]
  exact cell_emptyGrid (by omega) (by omega)

/-- Witness for `C5_uncovered_blank`: the single point `(1, 0, "#")`
leaves the cell at `(0, 0)` blank. -/
theorem C5_witness :
    cell (buildGrid [⟨1, 0, "#"⟩]) 0 0 = some blank :=
  C5_uncovered_blank [⟨1, 0, "#"⟩] 0 0 (by decide) (by decide) (by decide)

/-! ### Claim C6 — empty extraction ends the run with a message -/

/-- C6 (confirmed): whenever extraction yields an empty point set, each
pipeline reports its empty-result message (`noValidCoordinateData` for
the regex pipeline, `noValidData` for the tabular one once its earlier
guards pass), skips grid building and rendering, and returns normally —
the embedded pipelines are total functions into `Output` and no
exception path is taken. -/
theorem C6_empty_result :
    (∀ s : String, patPoints s = [] →
      print_grid_from_unstructured_doc s = Output.noValidCoordinateData) ∧
    (∀ s : String, 1 < (stripLines s).length →
      requiredCols.all (fun c => (headerOf (stripLines s)).contains c) = true →
      extractTabular (stripLines s) = [] →
      print_grid_from_data s = Output.noValidData) := by
  constructor
  · intro s h
    simp [print_grid_from_unstructured_doc, h]
  · intro s h1 h2 h3
    have h1' : ¬((stripLines s).length ≤ 1) := by omega
    simp [print_grid_from_data, h1', h3]
    simpa using h2

/-- Witness for `C6_empty_result`: a digit-free document and a table
whose only data row has non-numeric coordinates. -/
theorem C6_witness :
    print_grid_from_unstructured_doc "no coordinates here" =
      Output.noValidCoordinateData ∧
    print_grid_from_data "x-coordinate\tCharacter\ty-coordinate\nfoo\tA\tbar" =
      Output.noValidData :=
  ⟨C6_empty_result.1 "no coordinates here" (by decide),
   C6_empty_result.2 "x-coordinate\tCharacter\ty-coordinate\nfoo\tA\tbar"
     (by decide) (by decide) (by decide)⟩

/-! ### Claim C7 — a malformed row is dropped, the rest continue -/

theorem filterMap_mid_none {α β : Type} (f : α → Option β) (l1 l2 : List α)
    (b : α) (h : f b = none) :
    (l1 ++ b :: l2).filterMap f = (l1 ++ l2).filterMap f := by
  simp [List.filterMap_append, List.filterMap_cons, h]

/-- C7 (confirmed): a data row whose `x` or `y` field fails integer
coercion is dropped, and the extraction of all other rows is exactly
what it would have been without that row. -/
theorem C7_malformed_row_dropped (hdr bad : String) (pre post : List String)
    (hbad :
      parseInt? (((splitTabs bad)[(splitTabs hdr).indexOf "x-coordinate"]?).getD "") =
        none ∨
      parseInt? (((splitTabs bad)[(splitTabs hdr).indexOf "y-coordinate"]?).getD "") =
        none) :
    extractTabular (hdr :: (pre ++ bad :: post)) =
      extractTabular (hdr :: (pre ++ post)) := by
  have hnone : rowPoint? ((splitTabs hdr).indexOf "x-coordinate")
      ((splitTabs hdr).indexOf "Character")
      ((splitTabs hdr).indexOf "y-coordinate") (splitTabs bad) = none := by
    rcases hbad with h | h
    · rw [rowPoint?, h]
    · cases hx : parseInt? (((splitTabs bad)[(splitTabs hdr).indexOf "x-coordinate"]?).getD "") with
      | none => rw [rowPoint?, hx]
      | some v => rw [rowPoint?, hx, h]
  simp only [extractTabular, dataRows, headerOf, List.headI, List.drop_succ_cons,
    List.drop_zero, List.map_append, List.map_cons]
  exact filterMap_mid_none _ _ _ _ hnone

/-- Witness for `C7_malformed_row_dropped`: the row `"abc\tX\t1"` is
dropped, the rows around it are extracted unchanged. -/
theorem C7_witness :
    extractTabular ("x-coordinate\tCharacter\ty-coordinate" ::
        (["0\t#\t0"] ++ "abc\tX\t1" :: ["1\t*\t1"])) =
      extractTabular ("x-coordinate\tCharacter\ty-coordinate" ::
        (["0\t#\t0"] ++ ["1\t*\t1"])) :=
  C7_malformed_row_dropped "x-coordinate\tCharacter\ty-coordinate" "abc\tX\t1"
    ["0\t#\t0"] ["1\t*\t1"] (Or.inl (by decide))

/-! ### Claim C8 — missing required columns -/

/-- C8 (confirmed): when the cleaned input has data rows but its header
lacks one of the required columns, the pipeline reports the columns
actually found and stops without building a grid (and, being a total
function into `Output`, without raising). -/
theorem C8_missing_columns (s : String)
    (h1 : 1 < (stripLines s).length)
    (h2 : requiredCols.all (fun c => (headerOf (stripLines s)).contains c) = false) :
    print_grid_from_data s = Output.missingColumns (headerOf (stripLines s)) := by
  have h1' : ¬((stripLines s).length ≤ 1) := by omega
  have h2' : ¬∀ c ∈ requiredCols, c ∈ headerOf (stripLines s) := by simpa using h2
  simp [print_grid_from_data, h1', h2']

/-- Witness for `C8_missing_columns`: a two-line input with header
columns `a`, `b`. -/
theorem C8_witness :
    print_grid_from_data "a\tb\nc\td" =
      Output.missingColumns (headerOf (stripLines "a\tb\nc\td")) :=
  C8_missing_columns "a\tb\nc\td" (by decide) (by decide)

/-! ### Claim C9 — rendering -/

/-- C9, counterexample to the claim as stated: the tabular `Character`
field may be a multi-character string (`str(row[char_col])` performs no
single-character check), so an emitted line can be longer than the
grid's column count: here the grid has one column but the one rendered
line has length 2. -/
theorem C9_counterexample :
    print_grid_from_data "x-coordinate\tCharacter\ty-coordinate\n0\tab\t0" =
      Output.rendered ["ab"] ∧
    buildGrid (extractTabular
        (stripLines "x-coordinate\tCharacter\ty-coordinate\n0\tab\t0")) = [["ab"]] ∧
    ¬(("ab" : String).length = 1) := by
  decide

theorem joinRow_length_of_single {row : List String}
    (h : ∀ c ∈ row, c.length = 1) : (joinRow row).length = row.length := by
  induction row with
  | nil => rfl
  | cons c t ih =>
    rw [joinRow, String.length_append, List.length_cons,
      h c (List.mem_cons_self _ _),
      ih (fun d hd => h d (List.mem_cons_of_mem _ hd))]
    omega

/-- C9, amended: the renderer emits one line per grid row, in row
order, each line exactly the concatenation of that row's cells in
column order; whenever every cell of a row is a single character (as is
always the case for the regex pipeline, whose cells are the blank or a
one-character match), that row's line has length equal to the row's
column count. -/
theorem C9_render :
    ∀ g : List (List String),
      (∀ i : Nat, (renderLines g)[i]? = (g[i]?).map joinRow) ∧
      (∀ row ∈ g, (∀ c ∈ row, c.length = 1) →
        (joinRow row).length = row.length) :=
  fun g =>
    ⟨fun i => by rw [renderLines, List.getElem?_map],
     fun _ _ h => joinRow_length_of_single h⟩

/-- Witness for `C9_render` at the one-row grid `[["a", "b"]]`. -/
theorem C9_witness :
    (renderLines [["a", "b"]])[0]? =
      (([["a", "b"]] : List (List String))[0]?).map joinRow ∧
    (joinRow ["a", "b"]).length = (["a", "b"] : List String).length :=
  ⟨(C9_render [["a", "b"]]).1 0,
   (C9_render [["a", "b"]]).2 ["a", "b"] (by decide) (by decide)⟩

/-! ### Claim C10 — header-only or empty input -/

/-- C10 (confirmed): when the input contains at most one non-empty line
after stripping whitespace, the tabular pipeline reports
`noDataRows` ("No data rows found.") and returns at once — parsing,
coercion and grid construction are never reached. -/
theorem C10_header_only (s : String) (h : (stripLines s).length ≤ 1) :
    print_grid_from_data s = Output.noDataRows := by
  simp [print_grid_from_data, h]

/-- Witness for `C10_header_only`: a header-only input. -/
theorem C10_witness :
    print_grid_from_data "x-coordinate\tCharacter\ty-coordinate" =
      Output.noDataRows :=
  C10_header_only "x-coordinate\tCharacter\ty-coordinate" (by decide)

end PyDecoder
